import Mathlib

/-
Verification of the webcoordinate lobby coordinator (src/server.ts).

The TypeScript source is shallowly embedded below.  Stateful pieces (the
lobby registry, the coordinator queue, websocket sends, setTimeout calls,
setInterval handles) are modelled with explicit state passing: sends and
scheduled closures become entries of an effect trace, and a started
per-lobby runtime interval is recorded in `activeRuntimes` (the source
never clears these handles).  Client sessions are identified by a natural
number standing for the underlying socket object.
-/

namespace WebCoordinate

/-- WCConfig after the constructor merged the caller config with the
defaults: every field is present (the TS type has them all optional). -/
structure WCConfig where
  port : Nat
  hostname : String
  useSingleLobby : Bool
  runtimeInterval : Nat
  lobbyManageInterval : Nat
  exposeLobbiesInMetadata : Bool
  acceptAllConnections : Bool
  rejectionSocketCloseTimeout : Nat
  clientRemoveSocketCloseTimeout : Nat
  lobbyRemoveMessage : String
  createLobbyOnFirstClient : Bool
  deriving DecidableEq, Repr

/-- WCConfig as passed by the caller to the constructor: all fields
optional, exactly as in the TS type. -/
structure WCConfigInput where
  port : Option Nat := none
  hostname : Option String := none
  useSingleLobby : Option Bool := none
  runtimeInterval : Option Nat := none
  lobbyManageInterval : Option Nat := none
  exposeLobbiesInMetadata : Option Bool := none
  acceptAllConnections : Option Bool := none
  rejectionSocketCloseTimeout : Option Nat := none
  clientRemoveSocketCloseTimeout : Option Nat := none
  lobbyRemoveMessage : Option String := none
  createLobbyOnFirstClient : Option Bool := none
  deriving DecidableEq, Repr

/-- the defaultConfig object built in the WCServer constructor. -/
def defaultConfig : WCConfig :=
  { port := 7750
    hostname := "0.0.0.0"
    useSingleLobby := true
    runtimeInterval := 10
    exposeLobbiesInMetadata := true
    acceptAllConnections := true
    rejectionSocketCloseTimeout := 120
    clientRemoveSocketCloseTimeout := 120
    lobbyManageInterval := 100
    lobbyRemoveMessage := "This lobby is no longer available"
    createLobbyOnFirstClient := true }

/-- the constructor merge: each field is the provided value if present,
else the default (the TS code uses the nullish-coalescing operator). -/
def mergeConfig : Option WCConfigInput → WCConfig
  | none => defaultConfig
  | some c =>
    { port := c.port.getD defaultConfig.port
      hostname := c.hostname.getD defaultConfig.hostname
      useSingleLobby := c.useSingleLobby.getD defaultConfig.useSingleLobby
      runtimeInterval := c.runtimeInterval.getD defaultConfig.runtimeInterval
      lobbyManageInterval := c.lobbyManageInterval.getD defaultConfig.lobbyManageInterval
      exposeLobbiesInMetadata := c.exposeLobbiesInMetadata.getD defaultConfig.exposeLobbiesInMetadata
      acceptAllConnections := c.acceptAllConnections.getD defaultConfig.acceptAllConnections
      rejectionSocketCloseTimeout := c.rejectionSocketCloseTimeout.getD defaultConfig.rejectionSocketCloseTimeout
      clientRemoveSocketCloseTimeout := c.clientRemoveSocketCloseTimeout.getD defaultConfig.clientRemoveSocketCloseTimeout
      lobbyRemoveMessage := c.lobbyRemoveMessage.getD defaultConfig.lobbyRemoveMessage
      createLobbyOnFirstClient := c.createLobbyOnFirstClient.getD defaultConfig.createLobbyOnFirstClient }

/-- the period the constructor passes to setInterval for lobbyManageLoop.
The source passes the literal 100 (`}, 100);`): the merged configuration,
in particular its lobbyManageInterval field, is not consulted. -/
def lobbyManageLoopPeriodMs (_cfg : WCConfig) : Nat := 100

/-- a client identifier standing for one connected socket / WCClient
object; distinct numbers are distinct connection objects. -/
abbrev ClientId := Nat

/-- WCEvent: the scheduled-event payload type, empty in the source. -/
structure WCEvent where
  deriving DecidableEq, Repr

/-- WCLobby minus its runtime handle (runtime handles are tracked in the
server state as `activeRuntimes`, keyed by lobby id). -/
structure WCLobby where
  id : String
  clients : List ClientId
  events : List WCEvent
  deriving DecidableEq, Repr

/-- observable side effects of the server code, in program order. -/
inductive Effect where
  /-- a `ws.send(msg)` to the given client -/
  | send (client : ClientId) (msg : String)
  /-- a `setTimeout(() => ws.close(), delayMs)` for the given client -/
  | scheduleClose (client : ClientId) (delayMs : Nat)
  /-- invocation of an externally supplied queue callback, recording the id
  of the lobby it was handed (none models a JS `undefined` argument) -/
  | cbInvoke (tag : Nat) (result : Option String)
  /-- resolution of the joinLobby promise for the given client (the value
  is `lobby.id == lobbyId`), which resumes the await inside accept() -/
  | promiseResolve (client : ClientId) (value : Bool)
  deriving DecidableEq, Repr

/-- message "LOB::JOINING::" + lobbyId sent at the top of joinLobby. -/
def joiningMsg (lobbyId : String) : String := "LOB::JOINING::" ++ lobbyId

/-- message "LOB::JOINED::" + lobbyId sent in the joinLobby callback. -/
def joinedMsg (lobbyId : String) : String := "LOB::JOINED::" ++ lobbyId

/-- message `["CLS", reason].join("::")` sent by WCClient.remove. -/
def clsMsg (reason : String) : String := String.intercalate "::" ["CLS", reason]

/-- message `["SYN", syncPacketId, serverTime].join("::")` sent by sync(). -/
def synMsg (syncPacketId : String) (serverTime : Nat) : String :=
  String.intercalate "::" ["SYN", syncPacketId, toString serverTime]

/-- message `["ERR", "Access Denied"].join("::")`, the default rejection. -/
def errAccessDenied : String := String.intercalate "::" ["ERR", "Access Denied"]

/-- WCClient.remove as constructed inside accept(): send the CLS frame,
then schedule the socket close after clientRemoveSocketCloseTimeout.
The closure carries no one-shot flag in the source, so every invocation
repeats both effects. -/
def clientRemoveEffects (cfg : WCConfig) (c : ClientId) (reason : String) : List Effect :=
  [Effect.send c (clsMsg reason), Effect.scheduleClose c cfg.clientRemoveSocketCloseTimeout]

/-- the lobby registry `this.lobbies`: a string-keyed object, modelled as
an association list in key-insertion order. -/
abbrev Registry := List (String × WCLobby)

/-- property read `this.lobbies[k]`: first entry with the key, if any. -/
def Registry.lookup : Registry → String → Option WCLobby
  | [], _ => none
  | (k', v) :: r, k => if k' == k then some v else Registry.lookup r k

/-- whether the object has the key. -/
def Registry.hasKey : Registry → String → Bool
  | [], _ => false
  | (k', _) :: r, k => k' == k || Registry.hasKey r k

/-- property write `this.lobbies[k] = v`: overwrite in place when the key
exists, else append the fresh key. -/
def Registry.insert (r : Registry) (k : String) (v : WCLobby) : Registry :=
  if Registry.hasKey r k then
    r.map (fun p => if p.1 == k then (k, v) else p)
  else
    r ++ [(k, v)]

/-- `delete(this.lobbies[k])`. -/
def Registry.erase (r : Registry) (k : String) : Registry :=
  r.filter (fun p => !(p.1 == k))

/-- listLobbies: push `this.lobbies[k]` for every key, in key order. -/
def listLobbies (r : Registry) : List WCLobby := r.map Prod.snd

/-- mutable server state touched by the coordinator: the registry, the
set of started (and never cleared) per-lobby runtime intervals, and the
trace of emitted effects. -/
structure WCState where
  lobbies : Registry
  activeRuntimes : List String
  effects : List Effect
  deriving DecidableEq, Repr

/-- WCServer._createLobby: build a lobby with empty clients and events,
start its runtime setInterval (recorded in activeRuntimes; the source
never calls clearInterval on it), and write it into the registry. -/
def _createLobby (st : WCState) (lobbyId : String) : WCState :=
  { st with
    lobbies := Registry.insert st.lobbies lobbyId { id := lobbyId, clients := [], events := [] }
    activeRuntimes := st.activeRuntimes ++ [lobbyId] }

/-- WCServer.createLobby: throws when useSingleLobby is set (before any
mutation), else delegates to _createLobby. -/
def createLobby (cfg : WCConfig) (st : WCState) (lobbyId : String) : Except String WCState :=
  if cfg.useSingleLobby then
    Except.error "\"useSingleLobby\" was set in WCServer config, unable to create an additional lobby"
  else
    Except.ok (_createLobby st lobbyId)

/-- the three queue action strings. -/
inductive LMAction where
  | addClient
  | remove
  | query
  deriving DecidableEq, Repr

/-- the optional `data` field of a queue item. -/
structure LMData where
  lobbyId : String
  client : Option ClientId
  deriving DecidableEq, Repr

/-- the callbacks the source attaches to queue items: either the closure
built inside joinLobby, or an opaque externally supplied callback whose
invocation is recorded via `Effect.cbInvoke` with its tag. -/
inductive QueueCb where
  | joinLobbyCb (client : ClientId) (lobbyId : String)
  | probe (tag : Nat)
  deriving DecidableEq, Repr

/-- run a queue callback on the lobby value the drain hands it (none for
a JS `undefined`).  The joinLobby closure sends LOB::JOINED and resolves
the awaited promise with `lobby.id == lobbyId`; a probe just records its
invocation and the id of the lobby it received. -/
def runQueueCb : QueueCb → Option WCLobby → List Effect
  | QueueCb.probe tag, ol => [Effect.cbInvoke tag (ol.map WCLobby.id)]
  | QueueCb.joinLobbyCb c lobbyId, some lobby =>
    [Effect.send c (joinedMsg lobbyId), Effect.promiseResolve c (lobby.id == lobbyId)]
  | QueueCb.joinLobbyCb c lobbyId, none =>
    [Effect.send c (joinedMsg lobbyId)]

/-- LobbyManageQueueItem. -/
structure LobbyManageQueueItem where
  action : LMAction
  data : Option LMData
  cb : Option QueueCb
  deriving DecidableEq, Repr

/-- WCServer.addLobbyQueueAction: push the item to the tail of the queue. -/
def addLobbyQueueAction (q : List LobbyManageQueueItem) (action : LMAction)
    (data : Option LMData) (cb : Option QueueCb) : List LobbyManageQueueItem :=
  q ++ [{ action := action, data := data, cb := cb }]

/-- the for-loop body of the remove case: call c.remove(lobbyRemoveMessage)
for every member, in membership order. -/
def removeAllClients (cfg : WCConfig) : List ClientId → List Effect
  | [] => []
  | c :: rest => clientRemoveEffects cfg c cfg.lobbyRemoveMessage ++ removeAllClients cfg rest

/-- the switch inside the lobbyManageLoop interval callback, applied to
one dequeued item.  Mirrors the source case by case, including the falsy
guards (`!item.data?.lobbyId` is also taken for an empty string, and a
missing lobby at drain time just returns). -/
def applyQueueItem (cfg : WCConfig) (st : WCState) (item : LobbyManageQueueItem) : WCState :=
  match item.action with
  | LMAction.query =>
    match item.data with
    | none => st
    | some d =>
      if d.lobbyId == "" then st
      else
        match item.cb with
        | none => st
        | some cb =>
          { st with effects := st.effects ++ runQueueCb cb (Registry.lookup st.lobbies d.lobbyId) }
  | LMAction.addClient =>
    match item.data with
    | none => st
    | some d =>
      match d.client with
      | none => st
      | some c =>
        match Registry.lookup st.lobbies d.lobbyId with
        | none => st
        | some lobby =>
          let lobby' : WCLobby := { lobby with clients := lobby.clients ++ [c] }
          let st' : WCState := { st with lobbies := Registry.insert st.lobbies d.lobbyId lobby' }
          match item.cb with
          | none => st'
          | some cb => { st' with effects := st'.effects ++ runQueueCb cb (some lobby') }
  | LMAction.remove =>
    match item.data with
    | none => st
    | some d =>
      if d.lobbyId == "" then st
      else
        match Registry.lookup st.lobbies d.lobbyId with
        | none => st
        | some lobby =>
          { st with
            effects := st.effects ++ removeAllClients cfg lobby.clients
            lobbies := Registry.erase st.lobbies d.lobbyId }

/-- one tick of lobbyManageLoop: return early when the queue is empty,
else shift the head off the queue and run the switch on it. -/
def drainTick (cfg : WCConfig) : WCState × List LobbyManageQueueItem → WCState × List LobbyManageQueueItem
  | (st, []) => (st, [])
  | (st, item :: rest) => (applyQueueItem cfg st item, rest)

/-- n consecutive ticks of lobbyManageLoop. -/
def drainTicks (cfg : WCConfig) : Nat → WCState × List LobbyManageQueueItem → WCState × List LobbyManageQueueItem
  | 0, p => p
  | n + 1, p => drainTicks cfg n (drainTick cfg p)

/-- spec-side reference semantics: apply the requests one at a time, in
submission order, with no queue machinery. -/
def applyInSubmissionOrder (cfg : WCConfig) (st : WCState)
    (reqs : List LobbyManageQueueItem) : WCState :=
  reqs.foldl (applyQueueItem cfg) st

/-- predicate: the effect is the resolution of the join promise of the
given client. -/
def isPromiseResolveFor (c : ClientId) : Effect → Bool
  | Effect.promiseResolve c' _ => c' == c
  | _ => false

/-- the admitted-connection tail of the socket handler: joinLobby sends
LOB::JOINING and enqueues the add-client request with its completion
closure; accept() then awaits the returned promise, and sync() runs only
after that await resumes.  The promise is resolved inside the completion
closure, so after the queue is fully drained the SYN frame has been sent
precisely when a `promiseResolve` for this client is in the trace. -/
def joinLobbyThenSyncAfterDrain (cfg : WCConfig) (st : WCState)
    (q : List LobbyManageQueueItem) (lobbyId : String) (c : ClientId)
    (syncPacketId : String) (serverTime : Nat) : WCState :=
  let st1 : WCState := { st with effects := st.effects ++ [Effect.send c (joiningMsg lobbyId)] }
  let q1 := addLobbyQueueAction q LMAction.addClient
    (some { lobbyId := lobbyId, client := some c }) (some (QueueCb.joinLobbyCb c lobbyId))
  let st2 := (drainTicks cfg q1.length (st1, q1)).1
  if st2.effects.any (isPromiseResolveFor c) then
    { st2 with effects := st2.effects ++ [Effect.send c (synMsg syncPacketId serverTime)] }
  else st2

/-- the state one connection-handling context can reach: the shared server
state, the coordinator queue, and a count of WCClient objects constructed
so far by this handler. -/
structure ConnState where
  st : WCState
  queue : List LobbyManageQueueItem
  clientsConstructed : Nat
  deriving DecidableEq, Repr

/-- the synchronous part of joinLobby: send LOB::JOINING and enqueue the
add-client request carrying the completion closure. -/
def joinLobbyEnqueue (lobbyId : String) (c : ClientId) (s : ConnState) : ConnState :=
  { s with
    st := { s.st with effects := s.st.effects ++ [Effect.send c (joiningMsg lobbyId)] }
    queue := addLobbyQueueAction s.queue LMAction.addClient
      (some { lobbyId := lobbyId, client := some c }) (some (QueueCb.joinLobbyCb c lobbyId)) }

/-- accept() up to its awaited join (sync() runs only after the join
promise resolves and is modelled by joinLobbyThenSyncAfterDrain): a fresh
WCClient is constructed, then the single-lobby path joins "main", the
empty-registry multi-lobby path creates a fresh lobby (`freshId` stands
for the 6 random hex-encoded bytes) and joins it, and the remaining path
is the unimplemented negotiation placeholder. -/
def acceptRun (cfg : WCConfig) (c : ClientId) (freshId : String) (s : ConnState) : ConnState :=
  let s1 : ConnState := { s with clientsConstructed := s.clientsConstructed + 1 }
  if cfg.useSingleLobby then
    joinLobbyEnqueue "main" c s1
  else if (listLobbies s1.st.lobbies).length == 0 then
    let s2 : ConnState := { s1 with st := _createLobby s1.st freshId }
    joinLobbyEnqueue freshId c s2
  else
    s1

/-- the WCOpenEvent callback closure: return immediately when
acceptAllConnections is set; on a rejection send the rejection payload
(default ERR::Access Denied) and schedule the socket close; otherwise run
accept().  The closure holds no one-shot flag in the source, so repeated
invocations repeat these steps on the then-current state. -/
def openCallbackRun (cfg : WCConfig) (c : ClientId) (freshId : String)
    (shouldAccept : Bool) (rejectionPayload : Option String) (s : ConnState) : ConnState :=
  if cfg.acceptAllConnections then s
  else if !shouldAccept then
    { s with st := { s.st with effects := s.st.effects ++
        [Effect.send c (rejectionPayload.getD errAccessDenied),
         Effect.scheduleClose c cfg.rejectionSocketCloseTimeout] } }
  else
    acceptRun cfg c freshId s

/-! ### Helper lemmas shared by the claim theorems -/

theorem registry_lookup_map_overwrite (k : String) (v : WCLobby) :
    ∀ r : Registry, Registry.hasKey r k = true →
      Registry.lookup (r.map (fun p => if p.1 == k then (k, v) else p)) k = some v := by
  intro r
  induction r with
  | nil => intro h; cases h
  | cons p r' ih =>
    intro h
    cases hk : p.1 == k with
    | true =>
      have hfp : (if p.1 == k then ((k, v) : String × WCLobby) else p) = (k, v) := if_pos hk
      simp only [List.map_cons]
      rw [hfp]
      simp [Registry.lookup]
    | false =>
      have hfp : (if p.1 == k then ((k, v) : String × WCLobby) else p) = p := if_neg (by simp [hk])
      simp only [Registry.hasKey, hk, Bool.false_or] at h
      simp only [List.map_cons]
      rw [hfp]
      show (if p.1 == k then some p.2
            else Registry.lookup (r'.map (fun p => if p.1 == k then (k, v) else p)) k) = some v
      rw [if_neg (by simp [hk])]
      exact ih h

theorem registry_lookup_append_fresh (k : String) (v : WCLobby) :
    ∀ r : Registry, Registry.hasKey r k = false →
      Registry.lookup (r ++ [(k, v)]) k = some v := by
  intro r
  induction r with
  | nil => intro _; simp [Registry.lookup]
  | cons p r' ih =>
    intro h
    simp only [Registry.hasKey, Bool.or_eq_false_iff] at h
    show (if p.1 == k then some p.2 else Registry.lookup (r' ++ [(k, v)]) k) = some v
    rw [if_neg (by simp [h.1])]
    exact ih h.2

theorem registry_lookup_insert (r : Registry) (k : String) (v : WCLobby) :
    Registry.lookup (Registry.insert r k v) k = some v := by
  unfold Registry.insert
  cases h : Registry.hasKey r k with
  | true => rw [if_pos rfl]; exact registry_lookup_map_overwrite k v r h
  | false => rw [if_neg (by simp)]; exact registry_lookup_append_fresh k v r h

theorem registry_lookup_erase (r : Registry) (k : String) :
    Registry.lookup (Registry.erase r k) k = none := by
  induction r with
  | nil => rfl
  | cons p r' ih =>
    unfold Registry.erase at ih ⊢
    cases hk : p.1 == k with
    | true => simpa [List.filter_cons, hk] using ih
    | false =>
      simp only [List.filter_cons, hk, Bool.not_false, if_true]
      show (if p.1 == k then some p.2
            else Registry.lookup (r'.filter (fun p => !(p.1 == k))) k) = none
      rw [if_neg (by simp [hk])]
      exact ih

theorem drainTicks_drains_queue (cfg : WCConfig) (l : List LobbyManageQueueItem)
    (st : WCState) :
    drainTicks cfg l.length (st, l) = (applyInSubmissionOrder cfg st l, []) := by
  induction l generalizing st with
  | nil => rfl
  | cons i rest ih => exact ih (applyQueueItem cfg st i)

theorem enqueue_foldl_fifo (reqs acc : List LobbyManageQueueItem) :
    reqs.foldl (fun q i => addLobbyQueueAction q i.action i.data i.cb) acc = acc ++ reqs := by
  induction reqs generalizing acc with
  | nil => simp
  | cons i rest ih =>
    show rest.foldl _ (addLobbyQueueAction acc i.action i.data i.cb) = acc ++ i :: rest
    rw [ih]
    show (acc ++ [⟨i.action, i.data, i.cb⟩]) ++ rest = acc ++ i :: rest
    rw [List.append_assoc]
    rfl

theorem count_cls_removeAllClients (cfg : WCConfig) (c : ClientId) :
    ∀ clients : List ClientId,
      (removeAllClients cfg clients).count (Effect.send c (clsMsg cfg.lobbyRemoveMessage)) =
        clients.count c := by
  intro clients
  induction clients with
  | nil => rfl
  | cons m rest ih =>
    show (clientRemoveEffects cfg m cfg.lobbyRemoveMessage ++ removeAllClients cfg rest).count _ = _
    rw [List.count_append, ih, List.count_cons]
    by_cases hmc : m = c
    · subst hmc
      simp [clientRemoveEffects, List.count_cons]
      omega
    · have h1 : (Effect.send m (clsMsg cfg.lobbyRemoveMessage) ==
          Effect.send c (clsMsg cfg.lobbyRemoveMessage)) = false := by
        simp [beq_eq_false_iff_ne, hmc]
      have h2 : (m == c) = false := by simp [beq_eq_false_iff_ne, hmc]
      simp [clientRemoveEffects, List.count_cons, h1, h2]

/-! ### Claim theorems -/

/-- C1: for every sequence of mutation requests enqueued on the
coordinator, fully draining the queue (one request per tick, always
shifting the current head) yields exactly the state obtained by applying
the requests one at a time in submission order, with an empty queue left:
no request is reordered, skipped, or applied twice. -/
theorem drain_refines_submission_order (cfg : WCConfig) (st : WCState)
    (reqs : List LobbyManageQueueItem) :
    drainTicks cfg reqs.length
        (st, reqs.foldl (fun q i => addLobbyQueueAction q i.action i.data i.cb) []) =
      (applyInSubmissionOrder cfg st reqs, []) := by
  rw [enqueue_foldl_fifo]
  exact drainTicks_drains_queue cfg reqs st

/-- C3: the claim fails on the code.  WCClient.remove carries no one-shot
guard, so invoking it twice with the same reason emits two CLS frames and
schedules the socket closure twice, where the claim allows at most one of
each. -/
theorem client_remove_twice_double_sends :
    ((clientRemoveEffects defaultConfig 0 "bye" ++ clientRemoveEffects defaultConfig 0 "bye").count
        (Effect.send 0 (clsMsg "bye")) = 2) ∧
    ((clientRemoveEffects defaultConfig 0 "bye" ++ clientRemoveEffects defaultConfig 0 "bye").count
        (Effect.scheduleClose 0 defaultConfig.clientRemoveSocketCloseTimeout) = 2) := by
  decide

/-- C5: the claim fails on the code.  The constructor passes the literal
100 to setInterval for lobbyManageLoop, so the drain period ignores the
merged lobbyManageInterval option: configuring 50 still gives a 100 ms
period, and only the default value 100 makes the two coincide. -/
theorem manage_loop_period_ignores_config :
    lobbyManageLoopPeriodMs (mergeConfig (some { lobbyManageInterval := some 50 })) = 100 ∧
    (mergeConfig (some { lobbyManageInterval := some 50 })).lobbyManageInterval = 50 ∧
    (mergeConfig none).lobbyManageInterval = 100 := by
  decide

/-- C7: draining a remove request for a present three-member lobby sends
one CLS frame per member carrying the configured removal message and
deletes the registry key, but the lobby runtime tick handle is never
cleared (clearInterval is absent from the source): activeRuntimes still
holds the removed lobby, contradicting the cancellation conjunct of the
claim. -/
theorem remove_lobby_keeps_runtime_active :
    applyQueueItem defaultConfig
        (WCState.mk [("L", { id := "L", clients := [1, 2, 3], events := [] })] ["L"] [])
        { action := LMAction.remove, data := some { lobbyId := "L", client := none }, cb := none } =
      WCState.mk []
        ["L"]
        [Effect.send 1 (clsMsg defaultConfig.lobbyRemoveMessage), Effect.scheduleClose 1 120,
         Effect.send 2 (clsMsg defaultConfig.lobbyRemoveMessage), Effect.scheduleClose 2 120,
         Effect.send 3 (clsMsg defaultConfig.lobbyRemoveMessage), Effect.scheduleClose 3 120] := by
  decide

/-- C8: draining an add-client request whose target lobby id is absent
from the registry returns the state entirely unchanged (registry, every
membership list, runtimes and effects); the drain function is total, so
nothing is thrown on this path. -/
theorem add_client_absent_lobby_noop (cfg : WCConfig) (st : WCState)
    (lobbyId : String) (c : ClientId) (cb : Option QueueCb)
    (habs : Registry.lookup st.lobbies lobbyId = none) :
    applyQueueItem cfg st
      { action := LMAction.addClient, data := some { lobbyId := lobbyId, client := some c },
        cb := cb } = st := by
  simp [applyQueueItem, habs]

/-- C8 witness: the no-op at a concrete absent lobby id. -/
theorem add_client_absent_lobby_noop_witness :
    Registry.lookup
        (WCState.mk [("main", { id := "main", clients := [2], events := [] })] ["main"] []).lobbies
        "gone" = none ∧
    applyQueueItem defaultConfig
        (WCState.mk [("main", { id := "main", clients := [2], events := [] })] ["main"] [])
        { action := LMAction.addClient, data := some { lobbyId := "gone", client := some 7 },
          cb := none } =
      WCState.mk [("main", { id := "main", clients := [2], events := [] })] ["main"] [] :=
  ⟨by decide,
   add_client_absent_lobby_noop defaultConfig
     (WCState.mk [("main", { id := "main", clients := [2], events := [] })] ["main"] [])
     "gone" 7 none (by decide)⟩

/-- C9 counterexample: the claim says the completion callback is still
invoked with an absent-value result when the add is dropped, but the
add-client case returns before its callback invocation when the lobby is
absent, so a supplied callback never fires: no cbInvoke effect appears. -/
theorem dropped_add_client_no_callback :
    ((applyQueueItem defaultConfig (WCState.mk [] [] [])
        { action := LMAction.addClient, data := some { lobbyId := "L", client := some 1 },
          cb := some (QueueCb.probe 7) }).effects.contains (Effect.cbInvoke 7 none)) = false := by
  decide

/-- C9 amended: when an add-client request is dropped because its target
lobby is absent at drain time, the completion callback is not invoked at
all, with any value: the effect trace is unchanged and the drop is
completely silent. -/
theorem dropped_add_client_effects_unchanged (cfg : WCConfig) (st : WCState)
    (lobbyId : String) (c : ClientId) (cb : QueueCb)
    (habs : Registry.lookup st.lobbies lobbyId = none) :
    (applyQueueItem cfg st
      { action := LMAction.addClient, data := some { lobbyId := lobbyId, client := some c },
        cb := some cb }).effects = st.effects := by
  simp [applyQueueItem, habs]

/-- C9 witness: the silent drop at a concrete absent lobby id with a
tracked callback attached. -/
theorem dropped_add_client_effects_unchanged_witness :
    Registry.lookup (WCState.mk [] [] [Effect.send 9 "x"]).lobbies "L" = none ∧
    (applyQueueItem defaultConfig (WCState.mk [] [] [Effect.send 9 "x"])
      { action := LMAction.addClient, data := some { lobbyId := "L", client := some 1 },
        cb := some (QueueCb.probe 3) }).effects = (WCState.mk [] [] [Effect.send 9 "x"]).effects :=
  ⟨by decide,
   dropped_add_client_effects_unchanged defaultConfig (WCState.mk [] [] [Effect.send 9 "x"])
     "L" 1 (QueueCb.probe 3) (by decide)⟩

/-- C10: createLobby called while useSingleLobby is active throws the
configuration-violation error immediately, before any registry write or
queue interaction, so the failed call leaves the state unchanged. -/
theorem createLobby_single_lobby_error (cfg : WCConfig) (st : WCState) (lobbyId : String)
    (hs : cfg.useSingleLobby = true) :
    createLobby cfg st lobbyId =
      Except.error "\"useSingleLobby\" was set in WCServer config, unable to create an additional lobby" := by
  simp [createLobby, hs]

/-- C10 witness: the refusal under the default (single-lobby) config. -/
theorem createLobby_single_lobby_error_witness :
    defaultConfig.useSingleLobby = true ∧
    createLobby defaultConfig
        (WCState.mk [("main", { id := "main", clients := [], events := [] })] ["main"] []) "extra" =
      Except.error "\"useSingleLobby\" was set in WCServer config, unable to create an additional lobby" :=
  ⟨by decide,
   createLobby_single_lobby_error defaultConfig
     (WCState.mk [("main", { id := "main", clients := [], events := [] })] ["main"] [])
     "extra" (by decide)⟩

/-- C2 counterexample: the claim fails as stated in two ways.  First,
the claim quantifies over every client, but when client 1 is already a
member of lobby L, enqueueing add-client then remove and draining both
delivers two CLS frames to client 1, not exactly one: the add-client case
appends with no duplicate check and the remove case then notifies every
list entry.  Second, the claim quantifies over every lobby present in the
registry, but for a present lobby whose id is the empty string the remove
request is dropped by the falsy lobbyId guard of the remove case, so a
fresh client receives zero CLS frames and the lobby stays in the registry
with the client appended. -/
theorem add_then_remove_not_exactly_once :
    ((drainTicks defaultConfig 2
        (WCState.mk [("L", { id := "L", clients := [1], events := [] })] ["L"] [],
         [{ action := LMAction.addClient, data := some { lobbyId := "L", client := some 1 },
            cb := none },
          { action := LMAction.remove, data := some { lobbyId := "L", client := none },
            cb := none }])).1.effects.count
      (Effect.send 1 (clsMsg defaultConfig.lobbyRemoveMessage)) = 2) ∧
    ((drainTicks defaultConfig 2
        (WCState.mk [("", { id := "", clients := [], events := [] })] [""] [],
         [{ action := LMAction.addClient, data := some { lobbyId := "", client := some 1 },
            cb := none },
          { action := LMAction.remove, data := some { lobbyId := "", client := none },
            cb := none }])).1.effects.count
      (Effect.send 1 (clsMsg defaultConfig.lobbyRemoveMessage)) = 0) ∧
    Registry.lookup
      ((drainTicks defaultConfig 2
        (WCState.mk [("", { id := "", clients := [], events := [] })] [""] [],
         [{ action := LMAction.addClient, data := some { lobbyId := "", client := some 1 },
            cb := none },
          { action := LMAction.remove, data := some { lobbyId := "", client := none },
            cb := none }])).1.lobbies) "" =
      some { id := "", clients := [1], events := [] } := by
  decide

/-- C2 amended: provided the client is not already a member of the target
lobby and the lobby id is non-empty, enqueueing add-client then remove
for that lobby and draining both requests delivers exactly one
forced-removal CLS notification to the client, and the lobby is absent
from the registry afterwards. -/
theorem add_then_remove_notifies_once (cfg : WCConfig) (reg : Registry)
    (rts : List String) (lid : String) (lobby : WCLobby) (c : ClientId)
    (hl : Registry.lookup reg lid = some lobby)
    (hc : c ∉ lobby.clients)
    (hid : lid ≠ "") :
    ((drainTicks cfg 2
        (WCState.mk reg rts [],
         [{ action := LMAction.addClient, data := some { lobbyId := lid, client := some c },
            cb := none },
          { action := LMAction.remove, data := some { lobbyId := lid, client := none },
            cb := none }])).1.effects.count
      (Effect.send c (clsMsg cfg.lobbyRemoveMessage)) = 1) ∧
    Registry.lookup
      ((drainTicks cfg 2
        (WCState.mk reg rts [],
         [{ action := LMAction.addClient, data := some { lobbyId := lid, client := some c },
            cb := none },
          { action := LMAction.remove, data := some { lobbyId := lid, client := none },
            cb := none }])).1.lobbies) lid = none := by
  have hne : (lid == "") = false := beq_eq_false_iff_ne.mpr hid
  have hA : applyQueueItem cfg (WCState.mk reg rts [])
      { action := LMAction.addClient, data := some { lobbyId := lid, client := some c },
        cb := none } =
      WCState.mk
        (Registry.insert reg lid
          { id := lobby.id, clients := lobby.clients ++ [c], events := lobby.events }) rts [] := by
    simp [applyQueueItem, hl]
  have hB : applyQueueItem cfg
      (WCState.mk
        (Registry.insert reg lid
          { id := lobby.id, clients := lobby.clients ++ [c], events := lobby.events }) rts [])
      { action := LMAction.remove, data := some { lobbyId := lid, client := none },
        cb := none } =
      WCState.mk
        (Registry.erase
          (Registry.insert reg lid
            { id := lobby.id, clients := lobby.clients ++ [c], events := lobby.events }) lid)
        rts (removeAllClients cfg (lobby.clients ++ [c])) := by
    simp [applyQueueItem, hne, registry_lookup_insert]
  have hd : (drainTicks cfg 2
      (WCState.mk reg rts [],
       [{ action := LMAction.addClient, data := some { lobbyId := lid, client := some c },
          cb := none },
        { action := LMAction.remove, data := some { lobbyId := lid, client := none },
          cb := none }])).1 =
      WCState.mk
        (Registry.erase
          (Registry.insert reg lid
            { id := lobby.id, clients := lobby.clients ++ [c], events := lobby.events }) lid)
        rts (removeAllClients cfg (lobby.clients ++ [c])) := by
    show applyQueueItem cfg
        (applyQueueItem cfg (WCState.mk reg rts [])
          { action := LMAction.addClient, data := some { lobbyId := lid, client := some c },
            cb := none })
        { action := LMAction.remove, data := some { lobbyId := lid, client := none },
          cb := none } =
      WCState.mk
        (Registry.erase
          (Registry.insert reg lid
            { id := lobby.id, clients := lobby.clients ++ [c], events := lobby.events }) lid)
        rts (removeAllClients cfg (lobby.clients ++ [c]))
    rw [hA, hB]
  rw [hd]
  constructor
  · rw [count_cls_removeAllClients cfg c]
    rw [List.count_append, List.count_eq_zero.mpr hc]
    simp [List.count_cons]
  · exact registry_lookup_erase _ lid

/-- C2 witness: one notification and the lobby gone, at a concrete fresh
client joining a concrete lobby. -/
theorem add_then_remove_notifies_once_witness :
    Registry.lookup [("L", { id := "L", clients := [], events := [] })] "L" =
        some { id := "L", clients := [], events := [] } ∧
    (1 : ClientId) ∉ ({ id := "L", clients := [], events := [] } : WCLobby).clients ∧
    "L" ≠ "" ∧
    (((drainTicks defaultConfig 2
        (WCState.mk [("L", { id := "L", clients := [], events := [] })] [] [],
         [{ action := LMAction.addClient, data := some { lobbyId := "L", client := some 1 },
            cb := none },
          { action := LMAction.remove, data := some { lobbyId := "L", client := none },
            cb := none }])).1.effects.count
      (Effect.send 1 (clsMsg defaultConfig.lobbyRemoveMessage)) = 1) ∧
    Registry.lookup
      ((drainTicks defaultConfig 2
        (WCState.mk [("L", { id := "L", clients := [], events := [] })] [] [],
         [{ action := LMAction.addClient, data := some { lobbyId := "L", client := some 1 },
            cb := none },
          { action := LMAction.remove, data := some { lobbyId := "L", client := none },
            cb := none }])).1.lobbies) "L" = none) :=
  ⟨by decide, by decide, by decide,
   add_then_remove_notifies_once defaultConfig
     [("L", { id := "L", clients := [], events := [] })] [] "L"
     { id := "L", clients := [], events := [] } 1 (by decide) (by decide) (by decide)⟩

/-- C4: the claim fails on the code in its one-shot part.  The open-event
callback closure holds no fired flag, so with acceptAllConnections off
invoking the accept branch twice runs accept() twice: a second WCClient is
constructed and a second add-client is enqueued for the same connection
(the road to duplicate membership).  The auto-accept conjunct does hold:
under the default config the closure returns at once and both branches
leave the state unchanged. -/
theorem open_callback_second_invocation_has_effect :
    ((openCallbackRun { defaultConfig with acceptAllConnections := false } 0 "f" true none
        (openCallbackRun { defaultConfig with acceptAllConnections := false } 0 "f" true none
          (ConnState.mk
            (WCState.mk [("main", { id := "main", clients := [], events := [] })] ["main"] [])
            [] 0))).clientsConstructed = 2) ∧
    ((openCallbackRun { defaultConfig with acceptAllConnections := false } 0 "f" true none
        (openCallbackRun { defaultConfig with acceptAllConnections := false } 0 "f" true none
          (ConnState.mk
            (WCState.mk [("main", { id := "main", clients := [], events := [] })] ["main"] [])
            [] 0))).queue.length = 2) ∧
    (openCallbackRun defaultConfig 0 "f" true none
        (ConnState.mk
          (WCState.mk [("main", { id := "main", clients := [], events := [] })] ["main"] []) [] 0) =
      ConnState.mk
        (WCState.mk [("main", { id := "main", clients := [], events := [] })] ["main"] []) [] 0) ∧
    (openCallbackRun defaultConfig 0 "f" false none
        (ConnState.mk
          (WCState.mk [("main", { id := "main", clients := [], events := [] })] ["main"] []) [] 0) =
      ConnState.mk
        (WCState.mk [("main", { id := "main", clients := [], events := [] })] ["main"] []) [] 0) := by
  decide

/-- C6 counterexample: with the target lobby absent at drain time the
join promise never resolves (the add-client completion closure never
runs), so the awaited accept() never reaches sync(): the drained trace is
just the LOB::JOINING frame and no SYN frame is ever sent, contradicting
the claimed enqueue-independent optimistic handshake. -/
theorem syn_not_sent_when_lobby_absent :
    (joinLobbyThenSyncAfterDrain defaultConfig (WCState.mk [] [] []) [] "L" 1 "abc123" 42).effects =
      [Effect.send 1 (joiningMsg "L")] ∧
    ((joinLobbyThenSyncAfterDrain defaultConfig (WCState.mk [] [] []) [] "L" 1 "abc123" 42).effects.contains
      (Effect.send 1 (synMsg "abc123" 42))) = false := by
  decide

/-- C6 amended: for a fresh connection (empty trace, empty queue) the SYN
frame is sent precisely when the add-client mutation lands: a present
target lobby yields JOINING, JOINED, the promise resolution, then SYN; an
absent target lobby yields only JOINING, and SYN is never sent. -/
theorem syn_sent_iff_add_lands (cfg : WCConfig) (reg : Registry) (rts : List String)
    (lobbyId : String) (c : ClientId) (syncPacketId : String) (serverTime : Nat) :
    (joinLobbyThenSyncAfterDrain cfg (WCState.mk reg rts []) [] lobbyId c
        syncPacketId serverTime).effects =
      Effect.send c (joiningMsg lobbyId) ::
        (match Registry.lookup reg lobbyId with
         | some lobby =>
           [Effect.send c (joinedMsg lobbyId),
            Effect.promiseResolve c (lobby.id == lobbyId),
            Effect.send c (synMsg syncPacketId serverTime)]
         | none => []) := by
  cases hreg : Registry.lookup reg lobbyId with
  | none =>
    simp [joinLobbyThenSyncAfterDrain, addLobbyQueueAction, drainTicks, drainTick,
      applyQueueItem, hreg, isPromiseResolveFor]
  | some lobby =>
    simp [joinLobbyThenSyncAfterDrain, addLobbyQueueAction, drainTicks, drainTick,
      applyQueueItem, hreg, runQueueCb, isPromiseResolveFor]

end WebCoordinate
